import Mathlib

/-!
# Verification of the exoplanet-detection backend services

Shallow embedding of the request-validation and prediction-dispatch logic of
`src/backend/complete-backend-api.py` (the main Flask service), together with
the flux endpoint of `src/backend/backend2.py` and the tabular endpoint of
`src/backend/backend.py`.

Modelling conventions:
* JSON numbers are embedded as rationals (`ℚ`); model artifacts (classifier,
  scaler, encoder) are opaque parameters, embedded as functions returning
  `Except String _` so that an exception raised by an inference or transform
  call is an explicit `.error` value.
* A Python exception propagating to a handler's `try`/`except` block is the
  `.error` case; exception message texts that no claim inspects are
  canonicalized (they are noted where they occur).
* The `timestamp` response field (wall-clock time) is not modelled.
* `request.get_json()` yielding `None` or an empty object (both falsy in
  Python, hence caught by `if not data`) is the `noData` case.
-/

set_option autoImplicit false

namespace Exoplanet

/-- A JSON value stored under a feature key: a scalar number, or an array of
numbers (as used for the `flux_values` key on the CNN path). -/
inductive FVal where
  | num (q : ℚ)
  | arr (l : List ℚ)
deriving DecidableEq, Repr

/-- The `features` JSON object: an ordered key/value mapping (Python dicts
preserve insertion order, and keys are unique). -/
abbrev Features := List (String × FVal)

/-- Opaque handle to the loaded XGBoost classifier of
`complete-backend-api.py`: `predict` yields the class index of the single
row, `predict_proba` the probability row.  A raised exception is `.error`. -/
structure XgbModel where
  predict : List FVal → Except String Nat
  predict_proba : List FVal → Except String (List ℚ)

/-- Opaque handle to the loaded CNN classifier of `complete-backend-api.py`:
`predict` on the reshaped flux series yields the probability row. -/
structure CnnModel where
  predict : List ℚ → Except String (List ℚ)

/-- Opaque scaler artifact: `transform` applied to the single row. -/
abbrev Scaler := List FVal → Except String (List FVal)

/-- The module-level globals of `complete-backend-api.py` after startup:
`xgb_model`, `cnn_model`, `scaler`, `label_encoder` (its `classes_` array),
`feature_names`.  Each slot is `none` when the artifact was not loaded. -/
structure Registry where
  xgb_model : Option XgbModel
  cnn_model : Option CnnModel
  scaler : Option Scaler
  label_encoder : Option (List String)
  feature_names : Option (List String)

/-- The JSON body of a successful `/api/predict` response (without the
unmodelled `timestamp` field). -/
structure PredictionBody where
  classification : String
  confidence : ℚ
  probabilities : List (String × ℚ)
  model_used : String
deriving DecidableEq, Repr

/-- A response of the single-prediction endpoint: HTTP 200 with a prediction
body, or an HTTP error status with an `error` message and an optional
`missing` field. -/
inductive Response where
  | ok (body : PredictionBody)
  | err (status : Nat) (error : String) (missing : Option (List String))
deriving DecidableEq, Repr

/-- The parsed JSON body of a request to `/api/predict`: `noData` when the
body is absent, null or an empty object (all falsy under `if not data`),
otherwise a non-empty object with its optional `model` string and its
`features` object (absent `features` is the empty mapping). -/
inductive ReqData where
  | noData
  | obj (model : Option String) (features : Features)

/-- Observable work steps of the single-prediction handler, used to state
in which order DataFrame assembly, scaling and inference happen. -/
inductive Ev where
  | dfBuild
  | scalerTransform
  | xgbPredict
  | xgbProba
  | cnnPredict
deriving DecidableEq, Repr

/-- Python `round(x, 2)`: round to two decimal places. -/
def round2 (q : ℚ) : ℚ := (round (q * 100) : ℚ) / 100

/-- ASCII lowering of one character, as Python `str.lower` acts on the
ASCII model-kind strings occurring here. -/
def lowerChar (c : Char) : Char :=
  if 65 ≤ c.toNat ∧ c.toNat ≤ 90 then Char.ofNat (c.toNat + 32) else c

/-- Python `str.lower()` (on ASCII strings). -/
def pyLower (s : String) : String := ⟨s.data.map lowerChar⟩

/-- Sequence/array indexing: `l[i]`, raising `IndexError` out of range. -/
def listGet? {α : Type} (l : List α) (i : Nat) : Except String α :=
  match l.get? i with
  | some a => .ok a
  | none => .error "IndexError: index out of range"

/-- `np.argmax` over a non-empty list: index of the first maximal element.
`start` is the index of the head of the remaining list, `bi`/`bv` the best
index and value so far. -/
def argmaxAux : List ℚ → Nat → Nat → ℚ → Nat
  | [], _, bi, _ => bi
  | q :: rest, i, bi, bv =>
    if bv < q then argmaxAux rest (i + 1) i q else argmaxAux rest (i + 1) bi bv

/-- `np.argmax` of a non-empty probability row. -/
def argmax (q : ℚ) (rest : List ℚ) : Nat := argmaxAux rest 1 0 q

/-- `set(feature_names) - set(df.columns)` as a canonical duplicate-free
list (Python set iteration order is unspecified; the embedding enumerates
the missing keys in `feature_names` order). -/
def missingOf (fns : List String) (features : Features) : List String :=
  (fns.filter (fun k => ! (features.map Prod.fst).contains k)).dedup

/-- The label/percentage mapping of the response body: for each probability
`p` at index `i`, the pair `(label_encoder.classes_[i]` when an encoder is
present, else `str(i)`, `round(p * 100, 2))`.  Indexing past the end of the
encoder's classes raises. -/
def encodeLabelsAux (classes : Option (List String)) : Nat → List ℚ → Except String (List (String × ℚ))
  | _, [] => .ok []
  | i, p :: rest =>
    match (match classes with
           | some cs => listGet? cs i
           | none => .ok (toString i)) with
    | .error e => .error e
    | .ok lab =>
      match encodeLabelsAux classes (i + 1) rest with
      | .error e => .error e
      | .ok tail => .ok ((lab, round2 (p * 100)) :: tail)

def encodeLabels (classes : Option (List String)) (ps : List ℚ) : Except String (List (String × ℚ)) :=
  encodeLabelsAux classes 0 ps

/-- Lines 204–222 of `complete-backend-api.py`: label resolution,
confidence computation and response assembly, shared by both model paths. -/
def finishPrediction (reg : Registry) (model_type : String) (prediction : Nat)
    (probabilities : List ℚ) : Except String PredictionBody :=
  match (match reg.label_encoder with
         | some classes => listGet? classes prediction
         | none => .ok (toString prediction)) with
  | .error e => .error e
  | .ok predicted_label =>
    match listGet? probabilities prediction with
    | .error e => .error e
    | .ok p =>
      match encodeLabels reg.label_encoder probabilities with
      | .error e => .error e
      | .ok probs =>
        .ok { classification := predicted_label
              confidence := round2 (p * 100)
              probabilities := probs
              model_used := model_type }

/-- Intermediate outcome of a model branch: an early `return jsonify(...)`
(`resp`), a propagating exception (`exc`), or the `(prediction,
probabilities)` pair handed to the shared response-assembly tail. -/
inductive BranchOut where
  | resp (r : Response)
  | exc (e : String)
  | pred (prediction : Nat) (probabilities : List ℚ)

/-- `xgb_model.predict` then `xgb_model.predict_proba` on the scaled row. -/
def xgbPredictStep (m : XgbModel) (row : List FVal) (evs : List Ev) : BranchOut × List Ev :=
  match m.predict row with
  | .error e => (.exc e, evs ++ [.xgbPredict])
  | .ok pred =>
    match m.predict_proba row with
    | .error e => (.exc e, evs ++ [.xgbPredict, .xgbProba])
    | .ok probs => (.pred pred probs, evs ++ [.xgbPredict, .xgbProba])

/-- `scaler.transform(df)` when a scaler is loaded, else the raw values. -/
def xgbScaleStep (reg : Registry) (m : XgbModel) (row : List FVal) : BranchOut × List Ev :=
  match reg.scaler with
  | some sc =>
    match sc row with
    | .error e => (.exc e, [.scalerTransform])
    | .ok row2 => xgbPredictStep m row2 [.scalerTransform]
  | none => xgbPredictStep m row []

/-- The tabular branch, lines 160–179: when `feature_names` is truthy
(loaded and non-empty), the missing-key check and the column reordering
`df = df[feature_names]`; then scaling and inference. -/
def xgbBranch (reg : Registry) (m : XgbModel) (features : Features) : BranchOut × List Ev :=
  match reg.feature_names with
  | some fns =>
    if fns = [] then xgbScaleStep reg m (features.map Prod.snd)
    else if missingOf fns features = [] then
      xgbScaleStep reg m (fns.map (fun k => ((features.lookup k).getD (.num 0))))
    else (.resp (.err 400 "Missing required features" (some (missingOf fns features))), [])
  | none => xgbScaleStep reg m (features.map Prod.snd)

/-- `np.array(features["flux_values"]).reshape(1, -1, 1)`: an array value is
the series itself, a scalar becomes the one-element series. -/
def toFlux : FVal → List ℚ
  | .num q => [q]
  | .arr l => l

/-- The CNN branch, lines 186–199: presence check for `flux_values` (with no
length validation), reshape, inference, argmax. -/
def cnnBranch (m : CnnModel) (features : Features) : BranchOut × List Ev :=
  match features.lookup "flux_values" with
  | none => (.resp (.err 400 "CNN requires flux_values array (time series data)" none), [])
  | some v =>
    match m.predict (toFlux v) with
    | .error e => (.exc e, [.cnnPredict])
    | .ok [] => (.exc "attempt to get argmax of an empty sequence", [.cnnPredict])
    | .ok (p :: rest) => (.pred (argmax p rest) (p :: rest), [.cnnPredict])

/-- The body of `predict_single` from the `model_type` computation on, with
its event trace.  The `try` block's catch-all turns a propagating exception
into HTTP 500 with the exception message. -/
def predict_with_model_type (reg : Registry) (model_type : String) (features : Features) :
    Response × List Ev :=
  if features.isEmpty then (.err 400 "No features provided" none, [])
  else
    let branch : BranchOut × List Ev :=
      if model_type = "xgboost" then
        match reg.xgb_model with
        | none => (.resp (.err 500 "XGBoost model not loaded" none), [])
        | some m => xgbBranch reg m features
      else if model_type = "cnn" then
        match reg.cnn_model with
        | none => (.resp (.err 500 "CNN model not loaded" none), [])
        | some m => cnnBranch m features
      else (.resp (.err 400 ("Invalid model type: " ++ model_type) none), [])
    let evs := Ev.dfBuild :: branch.2
    match branch.1 with
    | .resp r => (r, evs)
    | .exc e => (.err 500 e none, evs)
    | .pred i ps =>
      match finishPrediction reg model_type i ps with
      | .error e => (.err 500 e none, evs)
      | .ok b => (.ok b, evs)

/-- `predict_single` of `complete-backend-api.py` (lines 125–227), with the
trace of DataFrame/scaling/inference work it performs.  `model_type =
data.get("model", "xgboost").lower()`; the single-row DataFrame is built
(event `dfBuild`) before the model branches run. -/
def predict_single_tr (reg : Registry) (data : ReqData) : Response × List Ev :=
  match data with
  | .noData => (.err 400 "No data provided" none, [])
  | .obj mf features => predict_with_model_type reg (pyLower (mf.getD "xgboost")) features

/-- The wire-visible response of `predict_single`. -/
def predict_single (reg : Registry) (data : ReqData) : Response :=
  (predict_single_tr reg data).1

/-- `predict_single` reads the module globals but never rebinds them (it has
no `global` statement); the state-passing form returns the registry with
the response. -/
def predict_single_st (reg : Registry) (data : ReqData) : Response × Registry :=
  (predict_single reg data, reg)

/-- The parsed JSON body of a request to `/api/predict/batch`: `noData` as
above, otherwise a non-empty object with its optional `model` string and the
`data` list of per-observation feature objects. -/
inductive BatchData where
  | noData
  | obj (model : Option String) (data : List Features)

/-- A response of the batch endpoint. -/
inductive BatchResponse where
  | ok (predictions : List Response) (total : Nat) (model_used : String)
  | err (status : Nat) (error : String)
deriving DecidableEq, Repr

/-- Line 260 of `complete-backend-api.py`: the attribute lookup
`predict_single.__wrapped__`.  Flask's route decorator registers the view
function and returns it unchanged, so `predict_single` is a plain function
without that attribute and the lookup raises an `AttributeError` (whose
Python message is canonicalized here); even if the attribute existed, the
call would still raise, since `predict_single` takes no positional
arguments. -/
def predict_single_wrapped : Except String (Features → String → Response) :=
  .error "AttributeError: function object has no attribute wrapped"

/-- `predict_batch` of `complete-backend-api.py` (lines 230–271).  The loop
body evaluates `predict_single.__wrapped__(obs, model_type)`; the first
iteration raises, and the catch-all returns HTTP 500 with the message. -/
def predict_batch (reg : Registry) (data : BatchData) : BatchResponse :=
  match data with
  | .noData => .err 400 "No data provided"
  | .obj mf observations =>
    let model_type := pyLower (mf.getD "xgboost")
    if observations.isEmpty then .err 400 "No observations provided"
    else
      match predict_single_wrapped with
      | .error e => .err 500 e
      | .ok f =>
        .ok (observations.map (fun obs => f obs model_type)) observations.length model_type

/-- A response of the flux endpoints of `backend2.py`. -/
inductive B2Response where
  | ok (model_used : String) (prediction : String) (probability : ℚ)
  | err (status : Nat) (error : String)
deriving DecidableEq, Repr

/-- `predict_flux` of `backend2.py` (lines 69–90).  The model handle is the
opaque `cnn_model.predict(x)[0][0]` scalar; `flux_data = none` models a
request body without the `flux_data` key (the `KeyError` is caught by the
handler's catch-all, which returns 400 with the message, canonicalized
here).  The length check runs before any inference call. -/
def b2_predict_flux (cnn_model : Option (List ℚ → Except String ℚ))
    (flux_data : Option (List ℚ)) : B2Response :=
  match cnn_model with
  | none => .err 500 "CNN model is not loaded."
  | some m =>
    match flux_data with
    | none => .err 400 "KeyError: flux_data"
    | some flux =>
      if flux.length ≠ 3197 then
        .err 400 ("Invalid input: Expected 3197 flux values, got " ++ toString flux.length ++ ".")
      else
        match m flux with
        | .error e => .err 400 e
        | .ok p => .ok "CNN Flux Model" (if 1 / 2 < p then "Exoplanet" else "Not an Exoplanet") p

/-- The hardcoded feature order of `backend.py` and `backend2.py`. -/
def XGB_FEATURE_ORDER : List String :=
  ["koi_period", "koi_duration", "koi_depth", "koi_prad", "koi_teq",
   "koi_insol", "koi_steff", "koi_srad", "koi_model_snr"]

/-- The columns of `XGB_FEATURE_ORDER` absent from the request, in order:
`pd.DataFrame([data])[XGB_FEATURE_ORDER]` raises a `KeyError` naming
exactly these columns when the list is non-empty. -/
def missingB1 (data : List (String × ℚ)) : List String :=
  XGB_FEATURE_ORDER.filter (fun k => ! (data.map Prod.fst).contains k)

/-- The canonicalized `str(e)` of the pandas `KeyError` for missing columns. -/
def keyErrMsg (missing : List String) : String :=
  toString missing ++ " not in index"

/-- A response of the tabular endpoint of `backend.py`. -/
inductive B1Response where
  | ok (prediction : String) (model_used : String)
  | err (status : Nat) (error : String)
deriving DecidableEq, Repr

/-- `predict_features` of `backend.py` (lines 99–134).  Required-key
validation happens implicitly through the column selection
`pd.DataFrame([data])[XGB_FEATURE_ORDER]`: a missing column raises a
`KeyError`, answered with HTTP 400 naming the missing columns; other
preprocessing failures give 500, and inference failures give 500. -/
def b1_predict_features (xgb_model : Option (List ℚ → Except String Nat))
    (xgb_scaler : Option (List ℚ → Except String (List ℚ)))
    (data : List (String × ℚ)) : B1Response :=
  match xgb_model, xgb_scaler with
  | some m, some sc =>
    if missingB1 data = [] then
      match sc (XGB_FEATURE_ORDER.map (fun k => (data.lookup k).getD 0)) with
      | .error e => .err 500 ("Error during preprocessing: " ++ e)
      | .ok scaled =>
        match m scaled with
        | .error e => .err 500 ("Error during prediction: " ++ e)
        | .ok code =>
          .ok (if code = 1 then "Exoplanet" else "Not Exoplanet") "XGBoost (Tabular Features)"
    else .err 400 ("Missing feature in request: " ++ keyErrMsg (missingB1 data))
  | _, _ => .err 500 "XGBoost model or scaler is not loaded."

/-- Outcome of one artifact on disk: the file is absent (`os.path.exists`
false), present and loadable, or present but corrupt (loading raises). -/
inductive LoadResult (α : Type) where
  | absent
  | found (a : α)
  | corrupt (msg : String)

/-- Whether loading this artifact would raise. -/
def LoadResult.isCorrupt {α : Type} : LoadResult α → Bool
  | .corrupt _ => true
  | _ => false

/-- The slot value a successful (or skipped) load leaves behind. -/
def LoadResult.toSlot {α : Type} : LoadResult α → Option α
  | .found a => some a
  | _ => none

/-- The on-disk state of the six artifact paths of
`complete-backend-api.py` (the CNN has a preferred `.keras` path and an
`.h5` fallback path). -/
structure Disk where
  xgb : LoadResult XgbModel
  cnnKeras : LoadResult CnnModel
  cnnH5 : LoadResult CnnModel
  scaler : LoadResult Scaler
  encoder : LoadResult (List String)
  features : LoadResult (List String)

/-- The registry with every slot empty. -/
def emptyRegistry : Registry :=
  { xgb_model := none, cnn_model := none, scaler := none
    label_encoder := none, feature_names := none }

/-- Scaler, encoder and feature-list loads (lines 69–79), still inside the
single `try` block: the first raising load aborts the remaining ones. -/
def load_tail (r : Registry) (d : Disk) : Registry :=
  match d.scaler with
  | .corrupt _ => r
  | ds =>
    let r2 := { r with scaler := ds.toSlot }
    match d.encoder with
    | .corrupt _ => r2
    | de =>
      let r3 := { r2 with label_encoder := de.toSlot }
      match d.features with
      | .corrupt _ => r3
      | df => { r3 with feature_names := df.toSlot }

/-- `load_models` of `complete-backend-api.py` (lines 47–87).  All five
loads run inside one `try` block: an artifact whose load raises ends the
block, keeping the slots assigned so far and leaving the rest empty; an
absent artifact is merely skipped.  The CNN `.keras` path is tried first,
the `.h5` path only when the former is absent. -/
def load_models (d : Disk) : Registry :=
  match d.xgb with
  | .corrupt _ => emptyRegistry
  | dx =>
    let r1 := { emptyRegistry with xgb_model := dx.toSlot }
    match d.cnnKeras with
    | .corrupt _ => r1
    | .found m => load_tail { r1 with cnn_model := some m } d
    | .absent =>
      match d.cnnH5 with
      | .corrupt _ => r1
      | dh => load_tail { r1 with cnn_model := dh.toSlot } d

/-! ## Concrete fixtures

Deterministic opaque artifacts used to evaluate the handlers at concrete
inputs. -/

/-- A benign tabular classifier: class 0 with probability row `[9/10, 1/10]`. -/
def mFix : XgbModel :=
  { predict := fun _ => .ok 0
    predict_proba := fun _ => .ok [9/10, 1/10] }

/-- A benign sequence classifier: probability row `[1]` for any input. -/
def cFix : CnnModel := { predict := fun _ => .ok [1] }

/-- A fully loaded registry around the two fixtures. -/
def regFix : Registry :=
  { xgb_model := some mFix, cnn_model := some cFix, scaler := none
    label_encoder := some ["CANDIDATE", "CONFIRMED"]
    feature_names := some ["koi_period"] }

/-- A feature object providing the one required key of `regFix`. -/
def ftsFix : Features := [("koi_period", .num (21/2))]

/-- The response body `predict_single` produces for `ftsFix` under `regFix`. -/
def bodyFix : PredictionBody :=
  { classification := "CANDIDATE", confidence := 90
    probabilities := [("CANDIDATE", 90), ("CONFIRMED", 10)]
    model_used := "xgboost" }

/-! ## Claims -/

/-- **C1.** The spec requires a single-element batch to yield the same
per-item result as the single-prediction endpoint, and `predict_batch`'s
own docstring says it applies the single-prediction logic to each item.
The code instead evaluates `predict_single.__wrapped__(obs, model_type)`:
the attribute does not exist (and the arity would be wrong), so every
non-empty batch request answers HTTP 500 with the `AttributeError`
message, while the same observation sent to the single endpoint succeeds. -/
theorem c1_batch_single_divergence :
    predict_batch regFix (.obj (some "xgboost") [ftsFix]) =
      .err 500 "AttributeError: function object has no attribute wrapped"
    ∧ predict_single regFix (.obj (some "xgboost") ftsFix) = .ok bodyFix := by
  refine ⟨rfl, ?_⟩
  simp [predict_single, predict_single_tr, predict_with_model_type, xgbBranch, xgbScaleStep,
        xgbPredictStep, finishPrediction, encodeLabels, encodeLabelsAux, listGet?, missingOf,
        regFix, mFix, ftsFix, bodyFix, round2, List.lookup, List.filter, List.dedup,
        show pyLower "xgboost" = "xgboost" from rfl]
  norm_num [round_eq]

/-- **C9.** Identical prediction requests against the same registry yield
identical responses (in particular identical classification and
confidence), and the handler leaves the registry unchanged: the source
reads the module globals but never rebinds them. -/
theorem c9_idempotent_no_mutation (reg : Registry) (data : ReqData) :
    (predict_single_st reg data).2 = reg
    ∧ (predict_single_st ((predict_single_st reg data).2) data).1
        = (predict_single_st reg data).1 :=
  ⟨rfl, rfl⟩

/-- **C10 (amended).** On the single-prediction endpoint an omitted `model`
key defaults to the tabular (xgboost) path and the value is matched
case-insensitively; the batch endpoint computes the model kind the same
way, but no batch request is ever dispatched to a model path because the
per-item call fails first (see C1). -/
theorem c10_default_and_case_insensitive :
    (∀ reg features,
        predict_single reg (.obj none features)
          = predict_single reg (.obj (some "XGBoost") features)
      ∧ predict_single reg (.obj none features)
          = predict_single reg (.obj (some "xgboost") features))
    ∧ (∀ reg features, features ≠ [] → reg.xgb_model = none →
        predict_single reg (.obj none features) = .err 500 "XGBoost model not loaded" none)
    ∧ (∀ reg obs,
        predict_batch reg (.obj none obs) = predict_batch reg (.obj (some "XGBoost") obs)) := by
  refine ⟨fun reg features => ⟨rfl, rfl⟩, fun reg features hne hx => ?_, fun reg obs => rfl⟩
  cases features with
  | nil => exact absurd rfl hne
  | cons kv fts =>
    simp [predict_single, predict_single_tr, predict_with_model_type, hx,
          show pyLower "xgboost" = "xgboost" from rfl]

/-- **C10, witness.** -/
theorem c10_default_and_case_insensitive_witness :
    predict_single emptyRegistry (.obj none [("koi_period", FVal.num 1)])
      = .err 500 "XGBoost model not loaded" none :=
  c10_default_and_case_insensitive.2.1 emptyRegistry [("koi_period", FVal.num 1)]
    (by decide) rfl

/-- A registry without a label encoder, for the batch counterexample. -/
def regFixB : Registry := { regFix with label_encoder := none }

/-- The body the tabular path produces for `ftsFix` under `regFixB`. -/
def bodyFixB : PredictionBody :=
  { classification := "0", confidence := 90
    probabilities := [("0", 90), ("1", 10)], model_used := "xgboost" }

/-- **C10, counterexample.** A batch request omitting `model` is not
dispatched to the tabular path: it answers HTTP 500 with the
`AttributeError` message, although the tabular path succeeds on the very
same observation. -/
theorem c10_batch_omitted_model_not_dispatched :
    predict_batch regFixB (.obj none [ftsFix]) =
      .err 500 "AttributeError: function object has no attribute wrapped"
    ∧ predict_single regFixB (.obj none ftsFix) = .ok bodyFixB := by
  refine ⟨rfl, ?_⟩
  simp [predict_single, predict_single_tr, predict_with_model_type, xgbBranch, xgbScaleStep,
        xgbPredictStep, finishPrediction, encodeLabels, encodeLabelsAux, listGet?, missingOf,
        regFixB, regFix, mFix, ftsFix, bodyFixB, round2, List.lookup, List.filter, List.dedup,
        show pyLower "xgboost" = "xgboost" from rfl]
  norm_num [round_eq]
  exact ⟨rfl, rfl⟩

/-- The HTTP status of a response: `none` for a 200 success. -/
def statusOf : Response → Option Nat
  | .ok _ => none
  | .err s _ _ => some s

/-- A benign binary flux model for `backend2.py`. -/
def fluxModelFix : List ℚ → Except String ℚ := fun _ => .ok 1

/-- **C3 (amended).** In `backend2.py`, `predict_flux` rejects every flux
series whose length differs from 3197 — in either direction — with HTTP
400 and a message stating both the expected (3197) and the received
length; the model is never invoked (the result is the same for every model
handle).  The claim as stated fails for `complete-backend-api.py`, whose
CNN path has no length validation (see the counterexample). -/
theorem c3_flux_length_check (cnn : List ℚ → Except String ℚ) (flux : List ℚ)
    (h : flux.length ≠ 3197) :
    b2_predict_flux (some cnn) (some flux) =
      .err 400 ("Invalid input: Expected 3197 flux values, got "
        ++ toString flux.length ++ ".") := by
  simp [b2_predict_flux, h]

/-- **C3, witness.** A flux series of length 3196 is rejected with 400. -/
theorem c3_flux_length_check_witness :
    b2_predict_flux (some fluxModelFix) (some (List.replicate 3196 (0 : ℚ))) =
      .err 400 ("Invalid input: Expected 3197 flux values, got "
        ++ toString (List.replicate 3196 (0 : ℚ)).length ++ ".") :=
  c3_flux_length_check fluxModelFix (List.replicate 3196 (0 : ℚ))
    (by simp only [List.length_replicate]; decide)

/-- A registry holding only a sequence classifier that answers `[1]`. -/
def regC3 : Registry :=
  { emptyRegistry with cnn_model := some { predict := fun _ => .ok [1] } }

/-- **C3, counterexample.** On `complete-backend-api.py`, a CNN request
whose flux series has length 3196 is not rejected: no length validation
exists on that path, the series reaches the inference call, and with a
total model the request succeeds (HTTP 200) instead of failing with 400. -/
theorem c3_flux_length_not_checked_in_main_api :
    predict_single regC3 (.obj (some "cnn") [("flux_values", .arr (List.replicate 3196 (0 : ℚ)))])
      = .ok { classification := "0", confidence := 100
              probabilities := [("0", 100)], model_used := "cnn" } := by
  generalize List.replicate 3196 (0 : ℚ) = l
  simp [predict_single, predict_single_tr, predict_with_model_type, cnnBranch, toFlux,
        finishPrediction, encodeLabels, encodeLabelsAux, listGet?, regC3, emptyRegistry,
        argmax, argmaxAux, round2, List.lookup,
        show pyLower "cnn" = "cnn" from rfl]
  norm_num [round_eq]
  exact rfl

/-- **C5 (amended).** A request whose `model` string lowers to neither
recognized kind is answered with HTTP 400 — with the invalid-model error
when the features mapping is non-empty; when it is empty the earlier
no-features check answers 400 first (so the status is never 500, but the
error is not the unknown-model one). -/
theorem c5_unknown_model_yields_400 (reg : Registry) (mt : String) (features : Features)
    (hx : pyLower mt ≠ "xgboost") (hc : pyLower mt ≠ "cnn") :
    (features ≠ [] →
      predict_single reg (.obj (some mt) features)
        = .err 400 ("Invalid model type: " ++ pyLower mt) none)
    ∧ statusOf (predict_single reg (.obj (some mt) features)) = some 400 := by
  constructor
  · intro hne
    cases features with
    | nil => exact absurd rfl hne
    | cons kv fts =>
      simp [predict_single, predict_single_tr, predict_with_model_type, hx, hc]
  · cases features with
    | nil => simp [predict_single, predict_single_tr, predict_with_model_type, statusOf]
    | cons kv fts =>
      simp [predict_single, predict_single_tr, predict_with_model_type, hx, hc, statusOf]

/-- **C5, witness.** `model = "random_forest"` with a non-empty features
mapping gets the invalid-model 400. -/
theorem c5_unknown_model_yields_400_witness :
    predict_single regFix (.obj (some "random_forest") [("koi_period", FVal.num 1)])
      = .err 400 ("Invalid model type: " ++ pyLower "random_forest") none :=
  (c5_unknown_model_yields_400 regFix "random_forest" [("koi_period", FVal.num 1)]
    (by decide) (by decide)).1 (by simp)

/-- **C5, counterexample.** With an empty features mapping and
`model = "random_forest"` the response is 400 but its error is the
no-features message, not an unknown-model error, refuting the claim that
every unknown-model request gets an unknown-model error. -/
theorem c5_empty_features_not_unknown_model_error :
    predict_single regFix (.obj (some "random_forest") [])
      = .err 400 "No features provided" none
    ∧ "No features provided" ≠ "Invalid model type: " ++ pyLower "random_forest" :=
  ⟨rfl, by decide⟩

/-! ## Helper lemmas shared between claims -/

/-- Membership in the embedded `set(feature_names) - set(df.columns)`. -/
theorem mem_missingOf (fns : List String) (features : Features) (k : String) :
    k ∈ missingOf fns features ↔ k ∈ fns ∧ k ∉ features.map Prod.fst := by
  simp [missingOf, List.mem_dedup, List.mem_filter]

/-- When the tabular model and a non-empty feature-name list are loaded and
some required key is absent, the handler answers 400 with the missing set. -/
theorem missing_check_fires (reg : Registry) (m : XgbModel) (fns : List String)
    (features : Features) (hm : reg.xgb_model = some m)
    (hf : reg.feature_names = some fns) (hfe : fns ≠ [])
    (hne : features ≠ []) (hmiss : missingOf fns features ≠ []) :
    predict_single reg (.obj (some "xgboost") features)
      = .err 400 "Missing required features" (some (missingOf fns features)) := by
  cases features with
  | nil => exact absurd rfl hne
  | cons kv fts =>
    simp [predict_single, predict_single_tr, predict_with_model_type, xgbBranch,
          hm, hf, hfe, hmiss, show pyLower "xgboost" = "xgboost" from rfl]

/-- The scale-and-infer tail never produces an early `return` response. -/
theorem xgbScaleStep_not_resp (reg : Registry) (m : XgbModel) (row : List FVal) (r : Response) :
    (xgbScaleStep reg m row).1 ≠ .resp r := by
  unfold xgbScaleStep xgbPredictStep
  rcases reg.scaler with _ | sc <;> simp
  · rcases m.predict row with e | p <;> simp
    rcases m.predict_proba row with e | ps <;> simp
  · rcases sc row with e | row2 <;> simp
    rcases m.predict row2 with e | p <;> simp
    rcases m.predict_proba row2 with e | ps <;> simp

/-- Whether a response is the missing-required-features 400. -/
def isMissingErr : Response → Bool
  | .ok _ => false
  | .err s e _ =>
    if s = 400 then (if e = "Missing required features" then true else false) else false

/-! ## Claims C2, C7, C8 -/

/-- **C2 (amended).** When the registry's feature-name list is loaded
(non-empty) and the tabular model artifact is loaded, every tabular request
with a non-empty features mapping that misses at least one required key is
answered with HTTP 400 whose `missing` field is exactly the set difference
of required keys minus provided keys — duplicate-free, with no false
positives, and never just the first missing key.  Without the model loaded
the model-availability 500 fires first, and with an empty features mapping
the no-features 400 fires first (see the counterexample). -/
theorem c2_missing_features_set_difference (reg : Registry) (m : XgbModel)
    (fns : List String) (features : Features)
    (hm : reg.xgb_model = some m)
    (hf : reg.feature_names = some fns) (hfe : fns ≠ [])
    (hne : features ≠ [])
    (hmiss : missingOf fns features ≠ []) :
    predict_single reg (.obj (some "xgboost") features)
      = .err 400 "Missing required features" (some (missingOf fns features))
    ∧ (missingOf fns features).Nodup
    ∧ (∀ k, k ∈ missingOf fns features ↔ k ∈ fns ∧ k ∉ features.map Prod.fst) :=
  ⟨missing_check_fires reg m fns features hm hf hfe hne hmiss,
   List.nodup_dedup _, fun k => mem_missingOf fns features k⟩

/-- **C2, witness.** -/
theorem c2_missing_features_set_difference_witness :
    predict_single regFix (.obj (some "xgboost") [("other", FVal.num 1)])
      = .err 400 "Missing required features"
          (some (missingOf ["koi_period"] [("other", FVal.num 1)]))
    ∧ (missingOf ["koi_period"] [("other", FVal.num 1)]).Nodup
    ∧ (∀ k, k ∈ missingOf ["koi_period"] [("other", FVal.num 1)]
          ↔ k ∈ ["koi_period"] ∧ k ∉ ([("other", FVal.num 1)] : Features).map Prod.fst) :=
  c2_missing_features_set_difference regFix mFix ["koi_period"] [("other", FVal.num 1)]
    rfl rfl (by decide) (by decide) (by decide)

/-- A registry whose feature-name list is loaded but whose tabular model is
not. -/
def regC2 : Registry := { emptyRegistry with feature_names := some ["koi_period"] }

/-- **C2, counterexample.** With the feature-name list loaded but the
tabular model slot empty, a request missing the required key is answered
with HTTP 500 (model not loaded), not the claimed 400 with a `missing`
field: the availability check precedes validation. -/
theorem c2_model_absent_masks_missing_keys :
    predict_single regC2 (.obj (some "xgboost") [("other", FVal.num 1)])
      = .err 500 "XGBoost model not loaded" none := rfl

/-- All six artifact loads either succeed or find the file absent. -/
def noCorrupt (d : Disk) : Prop :=
  d.xgb.isCorrupt = false ∧ d.cnnKeras.isCorrupt = false ∧ d.cnnH5.isCorrupt = false
  ∧ d.scaler.isCorrupt = false ∧ d.encoder.isCorrupt = false ∧ d.features.isCorrupt = false

/-- **C7 (amended).** Absent artifacts are isolated: when no load raises,
every slot receives exactly its own artifact's outcome, independent of
which other artifacts are absent (the CNN slot prefers the keras file and
falls back to the h5 file).  A load that raises, however, aborts the whole
single `try` block: slots assigned before the raise persist, later
artifacts stay unloaded even when present (see the counterexample). -/
theorem c7_loading_isolated_when_no_raise (d : Disk) (h : noCorrupt d) :
    load_models d =
      { xgb_model := d.xgb.toSlot
        cnn_model := (match d.cnnKeras with
                      | .found m => some m
                      | _ => d.cnnH5.toSlot)
        scaler := d.scaler.toSlot
        label_encoder := d.encoder.toSlot
        feature_names := d.features.toSlot } := by
  obtain ⟨dx, dk, dh, ds, de, df⟩ := d
  obtain ⟨h1, h2, h3, h4, h5, h6⟩ := h
  cases dx <;> cases dk <;> cases dh <;> cases ds <;> cases de <;> cases df <;>
    first
      | rfl
      | simp_all [LoadResult.isCorrupt]

/-- An identity scaler fixture. -/
def scFix : Scaler := fun r => .ok r

/-- A disk with some artifacts absent and none corrupt. -/
def diskOkFix : Disk :=
  { xgb := .absent, cnnKeras := .absent, cnnH5 := .found cFix
    scaler := .found scFix, encoder := .absent, features := .found ["koi_period"] }

/-- **C7, witness.** -/
theorem c7_loading_isolated_when_no_raise_witness :
    load_models diskOkFix =
      { xgb_model := none, cnn_model := some cFix, scaler := some scFix
        label_encoder := none, feature_names := some ["koi_period"] } := by
  have h := c7_loading_isolated_when_no_raise diskOkFix ⟨rfl, rfl, rfl, rfl, rfl, rfl⟩
  simpa [diskOkFix, LoadResult.toSlot] using h

/-- A disk whose CNN keras artifact is corrupt while the scaler, encoder
and feature-list artifacts are present and loadable. -/
def diskBadFix : Disk :=
  { xgb := .found mFix, cnnKeras := .corrupt "bad file", cnnH5 := .absent
    scaler := .found scFix, encoder := .found ["CANDIDATE"], features := .found ["koi_period"] }

/-- **C7, counterexample.** A corrupt CNN artifact does not leave only its
own slot empty: the loadable scaler, encoder and feature-list artifacts
stay unloaded, because the raise ends the single `try` block (the XGBoost
slot, assigned before the raise, persists). -/
theorem c7_corrupt_artifact_aborts_later_loads :
    (load_models diskBadFix).scaler = none
    ∧ (load_models diskBadFix).label_encoder = none
    ∧ (load_models diskBadFix).feature_names = none
    ∧ diskBadFix.scaler = .found scFix
    ∧ (load_models diskBadFix).xgb_model = some mFix :=
  ⟨rfl, rfl, rfl, rfl, rfl⟩

/-- A registry with the tabular model loaded but no feature-name list. -/
def regC8 : Registry := { emptyRegistry with xgb_model := some mFix }

/-- Benign artifacts for the `backend.py` endpoint. -/
def b1mFix : List ℚ → Except String Nat := fun _ => .ok 1

def b1scFix : List ℚ → Except String (List ℚ) := fun r => .ok r

/-- **C8 (amended).** In `complete-backend-api.py`, required-key validation
runs against the registry's loaded feature-name list — and only then: when
no feature-name list was loaded, no required-key validation happens at all
(no hardcoded fallback exists in that file; the missing-features error can
never arise).  The hardcoded `XGB_FEATURE_ORDER` list lives in
`backend.py`/`backend2.py`, whose tabular endpoint rejects requests missing
any of its keys with HTTP 400 via the pandas column-selection `KeyError`. -/
theorem c8_required_keys_source :
    (∀ reg m fns features, reg.xgb_model = some m → reg.feature_names = some fns →
       fns ≠ [] → features ≠ [] → missingOf fns features ≠ [] →
       predict_single reg (.obj (some "xgboost") features)
         = .err 400 "Missing required features" (some (missingOf fns features)))
    ∧ (∀ reg features, reg.feature_names = none →
       isMissingErr (predict_single reg (.obj (some "xgboost") features)) = false)
    ∧ (∀ m sc data, missingB1 data ≠ [] →
       b1_predict_features (some m) (some sc) data
         = .err 400 ("Missing feature in request: " ++ keyErrMsg (missingB1 data))) := by
  refine ⟨fun reg m fns features hm hf hfe hne hmiss =>
            missing_check_fires reg m fns features hm hf hfe hne hmiss,
          fun reg features hf => ?_, fun m sc data hmiss => ?_⟩
  · cases features with
    | nil => rfl
    | cons kv fts =>
      show isMissingErr (predict_with_model_type reg (pyLower "xgboost") (kv :: fts)).1 = false
      rw [show pyLower "xgboost" = "xgboost" from rfl]
      rcases hxm : reg.xgb_model with _ | m
      · simp [predict_with_model_type, hxm, isMissingErr]
      · have hbr : xgbBranch reg m (kv :: fts) = xgbScaleStep reg m ((kv :: fts).map Prod.snd) := by
          unfold xgbBranch
          rw [hf]
        generalize hrow : (kv :: fts).map Prod.snd = row at hbr
        rcases hout : (xgbScaleStep reg m row).1 with r | e | ⟨i, ps⟩
        · exact absurd hout (xgbScaleStep_not_resp reg m _ r)
        · simp [predict_with_model_type, hxm, hbr, hout, isMissingErr]
        · rcases hfin : finishPrediction reg "xgboost" i ps with e | b <;>
            simp [predict_with_model_type, hxm, hbr, hout, hfin, isMissingErr]
  · unfold b1_predict_features
    dsimp only
    rw [if_neg hmiss]

/-- **C8, witness.** -/
theorem c8_required_keys_source_witness :
    predict_single regFix (.obj (some "xgboost") [("alt", FVal.num 2)])
      = .err 400 "Missing required features"
          (some (missingOf ["koi_period"] [("alt", FVal.num 2)]))
    ∧ isMissingErr (predict_single regC8 (.obj (some "xgboost") [("junk", FVal.num 0)])) = false
    ∧ b1_predict_features (some b1mFix) (some b1scFix) [("koi_period", 1)]
        = .err 400 ("Missing feature in request: " ++ keyErrMsg (missingB1 [("koi_period", 1)])) :=
  ⟨c8_required_keys_source.1 regFix mFix ["koi_period"] [("alt", FVal.num 2)]
     rfl rfl (by decide) (by decide) (by decide),
   c8_required_keys_source.2.1 regC8 [("junk", FVal.num 0)] rfl,
   c8_required_keys_source.2.2 b1mFix b1scFix [("koi_period", 1)] (by decide)⟩

/-- **C8, counterexample.** With no feature-name list loaded,
`complete-backend-api.py` performs no required-key validation against any
list: a request whose single key belongs to no feature list — in
particular not to the hardcoded `XGB_FEATURE_ORDER` of the other variants —
reaches inference and succeeds. -/
theorem c8_no_fallback_validation :
    predict_single regC8 (.obj (some "xgboost") [("junk", FVal.num 0)])
      = .ok { classification := "0", confidence := 90
              probabilities := [("0", 90), ("1", 10)], model_used := "xgboost" }
    ∧ XGB_FEATURE_ORDER.contains "junk" = false := by
  refine ⟨?_, rfl⟩
  simp [predict_single, predict_single_tr, predict_with_model_type, xgbBranch, xgbScaleStep,
        xgbPredictStep, finishPrediction, encodeLabels, encodeLabelsAux, listGet?,
        regC8, emptyRegistry, mFix, round2,
        show pyLower "xgboost" = "xgboost" from rfl]
  norm_num [round_eq]
  exact ⟨rfl, rfl⟩

/-- A tabular model whose inference call raises. -/
def mErrFix : XgbModel :=
  { predict := fun _ => .error "boom", predict_proba := fun _ => .ok [] }

/-- A registry holding only the raising tabular model. -/
def regC4 : Registry := { emptyRegistry with xgb_model := some mErrFix }

/-- The single-row DataFrame the tabular path feeds the scaler (lines
160–169): reordered by the feature-name list when one is loaded and
non-empty, else the insertion-order values. -/
def dfRow (reg : Registry) (features : Features) : List FVal :=
  match reg.feature_names with
  | some fns =>
    if fns = [] then features.map Prod.snd
    else fns.map (fun k => ((features.lookup k).getD (.num 0)))
  | none => features.map Prod.snd

/-- The missing-key validation of lines 161–167 does not fire (either no
truthy feature-name list is loaded, or no required key is missing). -/
def validationPasses (reg : Registry) (features : Features) : Prop :=
  match reg.feature_names with
  | some fns => fns = [] ∨ missingOf fns features = []
  | none => True

/-- The row that reaches the inference calls: the scaler output when a
scaler is loaded (lines 171–175), else the raw row. -/
def scaledRow (reg : Registry) (features : Features) : Except String (List FVal) :=
  match reg.scaler with
  | some sc => sc (dfRow reg features)
  | none => .ok (dfRow reg features)

/-- When validation does not fire, the tabular branch is exactly the
scale-and-infer tail on the single-row DataFrame. -/
theorem xgbBranch_eq_scaleStep (reg : Registry) (m : XgbModel) (features : Features)
    (hv : validationPasses reg features) :
    xgbBranch reg m features = xgbScaleStep reg m (dfRow reg features) := by
  unfold validationPasses at hv
  unfold xgbBranch dfRow
  rcases hf : reg.feature_names with _ | fns
  · rfl
  · rw [hf] at hv
    dsimp only at hv ⊢
    by_cases h1 : fns = []
    · rw [if_pos h1, if_pos h1]
    · rcases hv with hv | hv
      · exact absurd hv h1
      · rw [if_neg h1, if_neg h1, if_pos hv]

/-- An exception propagating out of the tabular branch is answered by the
handler's catch-all as HTTP 500 with the exception message. -/
theorem xgb_exc_caught (reg : Registry) (mf : Option String) (features : Features)
    (m : XgbModel) (e : String) (hne : features ≠ [])
    (hml : pyLower (mf.getD "xgboost") = "xgboost")
    (hm : reg.xgb_model = some m)
    (hexc : (xgbBranch reg m features).1 = .exc e) :
    predict_single reg (.obj mf features) = .err 500 e none := by
  cases features with
  | nil => exact absurd rfl hne
  | cons kv fts =>
    simp [predict_single, predict_single_tr, predict_with_model_type, hml, hm, hexc]

/-- An exception propagating out of the CNN branch is answered by the
handler's catch-all as HTTP 500 with the exception message. -/
theorem cnn_exc_caught (reg : Registry) (mf : Option String) (features : Features)
    (c : CnnModel) (e : String) (hne : features ≠ [])
    (hml : pyLower (mf.getD "xgboost") = "cnn")
    (hc : reg.cnn_model = some c)
    (hexc : (cnnBranch c features).1 = .exc e) :
    predict_single reg (.obj mf features) = .err 500 e none := by
  cases features with
  | nil => exact absurd rfl hne
  | cons kv fts =>
    simp [predict_single, predict_single_tr, predict_with_model_type, hml, hc, hexc]

/-- A raising scaler transform makes the tail raise its message. -/
theorem xgbScaleStep_exc_of_scaler (reg : Registry) (m : XgbModel) (row : List FVal)
    (sc : Scaler) (e : String) (hs : reg.scaler = some sc) (he : sc row = .error e) :
    (xgbScaleStep reg m row).1 = .exc e := by
  unfold xgbScaleStep
  rw [hs]
  dsimp only
  rw [he]

/-- A raising `predict` call makes the tail raise its message, whatever the
scaler configuration. -/
theorem xgbScaleStep_exc_of_predict (reg : Registry) (m : XgbModel) (features : Features)
    (row : List FVal) (e : String)
    (hrow : scaledRow reg features = .ok row) (hp : m.predict row = .error e) :
    (xgbScaleStep reg m (dfRow reg features)).1 = .exc e := by
  unfold scaledRow at hrow
  unfold xgbScaleStep xgbPredictStep
  rcases hs : reg.scaler with _ | sc <;> rw [hs] at hrow <;> try dsimp only at hrow ⊢
  · obtain rfl : dfRow reg features = row := by injection hrow
    rw [hp]
  · rw [hrow]
    dsimp only
    rw [hp]

/-- A raising `predict_proba` call makes the tail raise its message,
whatever the scaler configuration. -/
theorem xgbScaleStep_exc_of_proba (reg : Registry) (m : XgbModel) (features : Features)
    (row : List FVal) (i : Nat) (e : String)
    (hrow : scaledRow reg features = .ok row)
    (hp : m.predict row = .ok i) (hq : m.predict_proba row = .error e) :
    (xgbScaleStep reg m (dfRow reg features)).1 = .exc e := by
  unfold scaledRow at hrow
  unfold xgbScaleStep xgbPredictStep
  rcases hs : reg.scaler with _ | sc <;> rw [hs] at hrow <;> try dsimp only at hrow ⊢
  · obtain rfl : dfRow reg features = row := by injection hrow
    rw [hp]
    dsimp only
    rw [hq]
  · rw [hrow]
    dsimp only
    rw [hp]
    dsimp only
    rw [hq]

/-- A raising CNN inference call makes the branch raise its message. -/
theorem cnnBranch_exc_of_predict (c : CnnModel) (features : Features) (v : FVal)
    (e : String) (hv : features.lookup "flux_values" = some v)
    (hp : c.predict (toFlux v) = .error e) :
    (cnnBranch c features).1 = .exc e := by
  unfold cnnBranch
  rw [hv]
  dsimp only
  rw [hp]

/-- **C4 (amended).** When the selected model artifact is absent the handler
answers HTTP 500 before any scaling or inference work — but after the
single-row DataFrame is built (its trace is exactly `[dfBuild]`), so not
before all DataFrame work as claimed.  Every exception raised by the
inference pipeline — a raising scaler transform, a raising tabular
`predict` or `predict_proba`, or a raising CNN `predict`, in any registry
configuration — is caught by the handler's catch-all and surfaced as an
HTTP 500 response carrying the underlying message; no failure propagates
out of the handler. -/
theorem c4_unavailable_before_inference_and_exceptions_caught :
    (∀ reg mf features, features ≠ [] → pyLower (mf.getD "xgboost") = "xgboost" →
       reg.xgb_model = none →
       predict_single_tr reg (.obj mf features)
         = (.err 500 "XGBoost model not loaded" none, [.dfBuild]))
    ∧ (∀ reg mf features, features ≠ [] → pyLower (mf.getD "xgboost") = "cnn" →
       reg.cnn_model = none →
       predict_single_tr reg (.obj mf features)
         = (.err 500 "CNN model not loaded" none, [.dfBuild]))
    ∧ (∀ reg mf m sc features e, features ≠ [] →
       pyLower (mf.getD "xgboost") = "xgboost" →
       reg.xgb_model = some m → reg.scaler = some sc →
       validationPasses reg features →
       sc (dfRow reg features) = .error e →
       predict_single reg (.obj mf features) = .err 500 e none)
    ∧ (∀ reg mf m features row e, features ≠ [] →
       pyLower (mf.getD "xgboost") = "xgboost" →
       reg.xgb_model = some m →
       validationPasses reg features →
       scaledRow reg features = .ok row →
       m.predict row = .error e →
       predict_single reg (.obj mf features) = .err 500 e none)
    ∧ (∀ reg mf m features row i e, features ≠ [] →
       pyLower (mf.getD "xgboost") = "xgboost" →
       reg.xgb_model = some m →
       validationPasses reg features →
       scaledRow reg features = .ok row →
       m.predict row = .ok i → m.predict_proba row = .error e →
       predict_single reg (.obj mf features) = .err 500 e none)
    ∧ (∀ reg mf c features v e, features ≠ [] →
       pyLower (mf.getD "xgboost") = "cnn" →
       reg.cnn_model = some c →
       features.lookup "flux_values" = some v →
       c.predict (toFlux v) = .error e →
       predict_single reg (.obj mf features) = .err 500 e none) := by
  refine ⟨fun reg mf features hne hml hx => ?_, fun reg mf features hne hml hc => ?_,
          fun reg mf m sc features e hne hml hm hs hv hsc => ?_,
          fun reg mf m features row e hne hml hm hv hrow hp => ?_,
          fun reg mf m features row i e hne hml hm hv hrow hp hq => ?_,
          fun reg mf c features v e hne hml hc hv hp => ?_⟩
  · cases features with
    | nil => exact absurd rfl hne
    | cons kv fts =>
      simp [predict_single_tr, predict_with_model_type, hml, hx]
  · cases features with
    | nil => exact absurd rfl hne
    | cons kv fts =>
      simp [predict_single_tr, predict_with_model_type, hml, hc]
  · exact xgb_exc_caught reg mf features m e hne hml hm
      (by rw [xgbBranch_eq_scaleStep reg m features hv]
          exact xgbScaleStep_exc_of_scaler reg m (dfRow reg features) sc e hs hsc)
  · exact xgb_exc_caught reg mf features m e hne hml hm
      (by rw [xgbBranch_eq_scaleStep reg m features hv]
          exact xgbScaleStep_exc_of_predict reg m features row e hrow hp)
  · exact xgb_exc_caught reg mf features m e hne hml hm
      (by rw [xgbBranch_eq_scaleStep reg m features hv]
          exact xgbScaleStep_exc_of_proba reg m features row i e hrow hp hq)
  · exact cnn_exc_caught reg mf features c e hne hml hc
      (cnnBranch_exc_of_predict c features v e hv hp)

/-- A scaler whose transform raises. -/
def scErrFix : Scaler := fun _ => .error "scaler boom"

/-- Scaler raises; model and feature list loaded. -/
def regScErr : Registry :=
  { xgb_model := some mFix, cnn_model := none, scaler := some scErrFix
    label_encoder := none, feature_names := some ["koi_period"] }

/-- `predict` raises behind a loaded (identity) scaler and feature list. -/
def regPredErr : Registry :=
  { xgb_model := some mErrFix, cnn_model := none, scaler := some scFix
    label_encoder := none, feature_names := some ["koi_period"] }

/-- A tabular model whose `predict_proba` raises after `predict` succeeds. -/
def mProbaErrFix : XgbModel :=
  { predict := fun _ => .ok 0, predict_proba := fun _ => .error "proba boom" }

/-- `predict_proba` raises; no scaler, no feature list. -/
def regProbaErr : Registry := { emptyRegistry with xgb_model := some mProbaErrFix }

/-- A CNN model whose inference call raises. -/
def cErrFix : CnnModel := { predict := fun _ => .error "cnn boom" }

/-- CNN inference raises. -/
def regCnnErr : Registry := { emptyRegistry with cnn_model := some cErrFix }

/-- **C4, witness.** One instance per failure point: absent model; raising
scaler (model and feature list loaded); raising `predict` (behind a loaded
scaler and feature list); raising `predict_proba`; raising CNN inference. -/
theorem c4_unavailable_before_inference_and_exceptions_caught_witness :
    predict_single_tr emptyRegistry (.obj (some "xgboost") [("koi_period", FVal.num 1)])
      = (.err 500 "XGBoost model not loaded" none, [.dfBuild])
    ∧ predict_single regScErr (.obj (some "xgboost") ftsFix) = .err 500 "scaler boom" none
    ∧ predict_single regPredErr (.obj (some "xgboost") ftsFix) = .err 500 "boom" none
    ∧ predict_single regProbaErr (.obj (some "xgboost") ftsFix) = .err 500 "proba boom" none
    ∧ predict_single regCnnErr (.obj (some "cnn") [("flux_values", FVal.arr [1, 2])])
        = .err 500 "cnn boom" none :=
  ⟨c4_unavailable_before_inference_and_exceptions_caught.1 emptyRegistry (some "xgboost")
     [("koi_period", FVal.num 1)] (by decide) (by decide) rfl,
   c4_unavailable_before_inference_and_exceptions_caught.2.2.1 regScErr (some "xgboost")
     mFix scErrFix ftsFix "scaler boom" (by decide) (by decide) rfl rfl
     (Or.inr (by decide)) rfl,
   c4_unavailable_before_inference_and_exceptions_caught.2.2.2.1 regPredErr (some "xgboost")
     mErrFix ftsFix (dfRow regPredErr ftsFix) "boom" (by decide) (by decide) rfl
     (Or.inr (by decide)) rfl rfl,
   c4_unavailable_before_inference_and_exceptions_caught.2.2.2.2.1 regProbaErr (some "xgboost")
     mProbaErrFix ftsFix (dfRow regProbaErr ftsFix) 0 "proba boom" (by decide) (by decide) rfl
     trivial rfl rfl rfl,
   c4_unavailable_before_inference_and_exceptions_caught.2.2.2.2.2 regCnnErr (some "cnn")
     cErrFix [("flux_values", FVal.arr [1, 2])] (FVal.arr [1, 2]) "cnn boom"
     (by decide) (by decide) rfl rfl rfl⟩

/-- **C4, counterexample.** The single-row DataFrame is assembled (line 153)
before the model-availability check: the failing request's trace contains
the DataFrame-build step, contradicting "fails before any tensor/DataFrame
work". -/
theorem c4_dataframe_built_before_availability_check :
    predict_single_tr emptyRegistry (.obj (some "xgboost") [("koi_period", FVal.num 2)])
      = (.err 500 "XGBoost model not loaded" none, [.dfBuild])
    ∧ Ev.dfBuild ∈
        (predict_single_tr emptyRegistry (.obj (some "xgboost") [("koi_period", FVal.num 2)])).2 :=
  ⟨rfl, by decide⟩

/-! ## Inversion lemmas for the successful-response claim (C6) -/

/-- Inverting a successful sequence/array indexing. -/
theorem listGet?_ok {α : Type} (l : List α) (i : Nat) (a : α)
    (h : listGet? l i = .ok a) : ∃ hi : i < l.length, l.get ⟨i, hi⟩ = a := by
  unfold listGet? at h
  cases hg : l.get? i with
  | none => rw [hg] at h; exact absurd h (by simp)
  | some x =>
    rw [hg] at h
    obtain rfl : x = a := by injection h
    exact List.get?_eq_some.mp hg

/-- A successful response-assembly tail determines the confidence as the
rounded percentage of the predicted index's probability, and the label as
an encoder class (or the stringified index). -/
theorem finishPrediction_ok (reg : Registry) (mt : String) (i : Nat) (ps : List ℚ)
    (b : PredictionBody) (h : finishPrediction reg mt i ps = .ok b) :
    ∃ hi : i < ps.length,
      b.confidence = round2 (ps.get ⟨i, hi⟩ * 100)
      ∧ (match reg.label_encoder with
         | some classes => b.classification ∈ classes
         | none => b.classification = toString i) := by
  unfold finishPrediction at h
  rcases hle : reg.label_encoder with _ | classes <;> rw [hle] at h <;> try dsimp only at h
  · rcases hp : listGet? ps i with e | p <;> rw [hp] at h
    · exact absurd h (by simp)
    · rcases hm : encodeLabels none ps with e | probs <;> rw [hm] at h
      · exact absurd h (by simp)
      · obtain rfl : _ = b := by injection h
        obtain ⟨hi, hget⟩ := listGet?_ok ps i p hp
        exact ⟨hi, by rw [hget], rfl⟩
  · rcases hlab : listGet? classes i with e | lab <;> rw [hlab] at h
    · exact absurd h (by simp)
    · rcases hp : listGet? ps i with e | p <;> rw [hp] at h
      · exact absurd h (by simp)
      · rcases hm : encodeLabels (some classes) ps with e | probs <;> rw [hm] at h
        · exact absurd h (by simp)
        · obtain rfl : _ = b := by injection h
          obtain ⟨hi, hget⟩ := listGet?_ok ps i p hp
          obtain ⟨hic, hgetc⟩ := listGet?_ok classes i lab hlab
          refine ⟨hi, by rw [hget], ?_⟩
          dsimp only
          rw [← hgetc]
          exact List.get_mem classes i hic

/-- A `pred` outcome of the tabular branch carries exactly the class index
`predict` returned and the probability row `predict_proba` returned, both
on the same (scaled) row. -/
theorem xgbScaleStep_pred_inv (reg : Registry) (m : XgbModel) (row : List FVal)
    (i : Nat) (ps : List ℚ) (h : (xgbScaleStep reg m row).1 = .pred i ps) :
    ∃ r2, m.predict r2 = .ok i ∧ m.predict_proba r2 = .ok ps := by
  unfold xgbScaleStep xgbPredictStep at h
  rcases hs : reg.scaler with _ | sc <;> rw [hs] at h <;> try dsimp only at h
  · rcases hp : m.predict row with e | pred <;> rw [hp] at h <;> try dsimp only at h
    · simp at h
    · rcases hq : m.predict_proba row with e | probs <;> rw [hq] at h <;> try dsimp only at h
      · simp at h
      · simp at h
        obtain ⟨rfl, rfl⟩ := h
        exact ⟨row, hp, hq⟩
  · rcases hsc : sc row with e | row2 <;> rw [hsc] at h <;> try dsimp only at h
    · simp at h
    · rcases hp : m.predict row2 with e | pred <;> rw [hp] at h <;> try dsimp only at h
      · simp at h
      · rcases hq : m.predict_proba row2 with e | probs <;> rw [hq] at h <;> try dsimp only at h
        · simp at h
        · simp at h
          obtain ⟨rfl, rfl⟩ := h
          exact ⟨row2, hp, hq⟩

theorem xgbBranch_pred_inv (reg : Registry) (m : XgbModel) (features : Features)
    (i : Nat) (ps : List ℚ) (h : (xgbBranch reg m features).1 = .pred i ps) :
    ∃ r2, m.predict r2 = .ok i ∧ m.predict_proba r2 = .ok ps := by
  unfold xgbBranch at h
  rcases hf : reg.feature_names with _ | fns <;> rw [hf] at h <;> try dsimp only at h
  · exact xgbScaleStep_pred_inv reg m _ i ps h
  · by_cases h1 : fns = []
    · rw [if_pos h1] at h
      exact xgbScaleStep_pred_inv reg m _ i ps h
    · rw [if_neg h1] at h
      by_cases h2 : missingOf fns features = []
      · rw [if_pos h2] at h
        exact xgbScaleStep_pred_inv reg m _ i ps h
      · rw [if_neg h2] at h
        simp at h

/-- An early response of the tabular branch is always the missing-features
400 error. -/
theorem xgbBranch_resp_inv (reg : Registry) (m : XgbModel) (features : Features)
    (r : Response) (h : (xgbBranch reg m features).1 = .resp r) :
    ∃ l, r = .err 400 "Missing required features" (some l) := by
  unfold xgbBranch at h
  rcases hf : reg.feature_names with _ | fns <;> rw [hf] at h <;> try dsimp only at h
  · exact absurd h (xgbScaleStep_not_resp reg m _ r)
  · by_cases h1 : fns = []
    · rw [if_pos h1] at h
      exact absurd h (xgbScaleStep_not_resp reg m _ r)
    · rw [if_neg h1] at h
      by_cases h2 : missingOf fns features = []
      · rw [if_pos h2] at h
        exact absurd h (xgbScaleStep_not_resp reg m _ r)
      · rw [if_neg h2] at h
        simp at h
        exact ⟨missingOf fns features, h.symm⟩

/-- A `pred` outcome of the CNN branch carries exactly the (non-empty)
probability row the model produced, with the argmax index as prediction. -/
theorem cnnBranch_pred_inv (m : CnnModel) (features : Features)
    (i : Nat) (ps : List ℚ) (h : (cnnBranch m features).1 = .pred i ps) :
    ∃ x p rest, m.predict x = .ok (p :: rest) ∧ ps = p :: rest ∧ i = argmax p rest := by
  unfold cnnBranch at h
  rcases hv : features.lookup "flux_values" with _ | v <;> rw [hv] at h <;> try dsimp only at h
  · simp at h
  · rcases hp : m.predict (toFlux v) with e | probs <;> rw [hp] at h <;> try dsimp only at h
    · simp at h
    · cases probs with
      | nil => simp at h
      | cons p rest =>
        simp at h
        exact ⟨toFlux v, p, rest, hp, h.2.symm, h.1.symm⟩

/-- An early response of the CNN branch is the flux-values 400 error. -/
theorem cnnBranch_resp_inv (m : CnnModel) (features : Features)
    (r : Response) (h : (cnnBranch m features).1 = .resp r) :
    r = .err 400 "CNN requires flux_values array (time series data)" none := by
  unfold cnnBranch at h
  rcases hv : features.lookup "flux_values" with _ | v <;> rw [hv] at h <;> try dsimp only at h
  · simp at h
    exact h.symm
  · rcases hp : m.predict (toFlux v) with e | probs <;> rw [hp] at h <;> try dsimp only at h
    · simp at h
    · cases probs with
      | nil => simp at h
      | cons p rest => simp at h

/-- A successful response comes from a `(prediction, probabilities)` pair of
one of the two model paths, finished by the shared response-assembly tail:
on the tabular path the index is the class `predict` returned and the row
is what `predict_proba` returned on the same input; on the CNN path the row
is the model's output and the index its argmax. -/
theorem predict_ok_inv (reg : Registry) (data : ReqData) (b : PredictionBody)
    (h : predict_single reg data = .ok b) :
    ∃ mt i ps, finishPrediction reg mt i ps = .ok b
      ∧ ((∃ m, reg.xgb_model = some m
            ∧ ∃ row, m.predict row = .ok i ∧ m.predict_proba row = .ok ps)
        ∨ (∃ c, reg.cnn_model = some c
            ∧ ∃ x p rest, c.predict x = .ok (p :: rest) ∧ ps = p :: rest ∧ i = argmax p rest)) := by
  rcases data with _ | ⟨mf, features⟩
  · exact absurd h (by simp [predict_single, predict_single_tr])
  · unfold predict_single predict_single_tr predict_with_model_type at h
    dsimp only at h
    by_cases hemp : features.isEmpty
    · rw [if_pos hemp] at h
      exact absurd h (by simp)
    · rw [if_neg hemp] at h
      try dsimp only at h
      by_cases hx : pyLower (mf.getD "xgboost") = "xgboost"
      · rw [if_pos hx] at h
        rcases hm : reg.xgb_model with _ | m <;> rw [hm] at h <;> try dsimp only at h
        · simp at h
        · rcases hbr : (xgbBranch reg m features).1 with r | e | ⟨i, ps⟩ <;>
            rw [hbr] at h <;> try dsimp only at h
          · obtain ⟨l, rfl⟩ := xgbBranch_resp_inv reg m features r hbr
            simp at h
          · simp at h
          · rcases hfin : finishPrediction reg (pyLower (mf.getD "xgboost")) i ps with e | b2 <;>
              rw [hfin] at h <;> try dsimp only at h
            · simp at h
            · obtain rfl : b2 = b := by simpa using h
              exact ⟨_, i, ps, hfin, Or.inl ⟨m, rfl, xgbBranch_pred_inv reg m features i ps hbr⟩⟩
      · rw [if_neg hx] at h
        by_cases hc : pyLower (mf.getD "xgboost") = "cnn"
        · rw [if_pos hc] at h
          rcases hm : reg.cnn_model with _ | c <;> rw [hm] at h <;> try dsimp only at h
          · simp at h
          · rcases hbr : (cnnBranch c features).1 with r | e | ⟨i, ps⟩ <;>
              rw [hbr] at h <;> try dsimp only at h
            · have hre := cnnBranch_resp_inv c features r hbr
              subst hre
              simp at h
            · simp at h
            · rcases hfin : finishPrediction reg (pyLower (mf.getD "xgboost")) i ps with e | b2 <;>
                rw [hfin] at h <;> try dsimp only at h
              · simp at h
              · obtain rfl : b2 = b := by simpa using h
                exact ⟨_, i, ps, hfin, Or.inr ⟨c, rfl, cnnBranch_pred_inv c features i ps hbr⟩⟩
        · rw [if_neg hc] at h
          simp at h

/-- The hypothesis of the amended C6: every probability row either loaded
model can output consists of values in `[0, 1]` (what `predict_proba` or a
softmax/sigmoid output satisfies; mere non-negativity is not enough, see
the counterexample). -/
def probaRanged (reg : Registry) : Prop :=
  (∀ m, reg.xgb_model = some m →
    ∀ r ps, m.predict_proba r = .ok ps → ∀ p ∈ ps, 0 ≤ p ∧ p ≤ 1)
  ∧ (∀ c, reg.cnn_model = some c →
    ∀ x ps, c.predict x = .ok ps → ∀ p ∈ ps, 0 ≤ p ∧ p ≤ 1)

/-- Rounding a percentage in `[0, 100]` to two decimals stays in `[0, 100]`. -/
theorem round2_bounds (x : ℚ) (h0 : 0 ≤ x) (h1 : x ≤ 100) :
    0 ≤ round2 x ∧ round2 x ≤ 100 := by
  unfold round2
  have hge : (0 : ℤ) ≤ round (x * 100) := by
    rw [round_eq]
    exact Int.le_floor.mpr (by push_cast; linarith)
  have hle : round (x * 100) ≤ 10000 := by
    rw [round_eq]
    have h2 : (⌊x * 100 + 1 / 2⌋ : ℤ) < 10001 := by
      apply Int.floor_lt.mpr
      push_cast
      linarith
    omega
  constructor
  · exact div_nonneg (by exact_mod_cast hge) (by norm_num)
  · rw [div_le_iff₀ (by norm_num : (0:ℚ) < 100)]
    have h3 : ((round (x * 100) : ℤ) : ℚ) ≤ (10000 : ℚ) := by exact_mod_cast hle
    linarith

/-- **C6 (amended).** For every successful prediction response there are a
probability row `ps` and a predicted class index `i` that genuinely came
from the loaded model — on the tabular path `i` is the class `predict`
returned and `ps` what `predict_proba` returned on the same input, on the
CNN path `ps` is the model's output and `i` its argmax — such that the
confidence equals `ps[i]` expressed as a percentage rounded to two
decimals, and the classification label is an encoder class when an encoder
is loaded, else the stringified index `i`; the confidence lies in
`[0, 100]` provided the model's probabilities lie in `[0, 1]`
(non-negativity alone does not bound it, see the counterexample). -/
theorem c6_confidence_and_label (reg : Registry) (data : ReqData) (b : PredictionBody)
    (hr : probaRanged reg) (h : predict_single reg data = .ok b) :
    (0 ≤ b.confidence ∧ b.confidence ≤ 100)
    ∧ (∃ (ps : List ℚ) (i : Nat) (hi : i < ps.length),
        ((∃ m, reg.xgb_model = some m
            ∧ ∃ row, m.predict row = .ok i ∧ m.predict_proba row = .ok ps)
         ∨ (∃ c, reg.cnn_model = some c
            ∧ ∃ x p rest, c.predict x = .ok (p :: rest) ∧ ps = p :: rest ∧ i = argmax p rest))
        ∧ b.confidence = round2 (ps.get ⟨i, hi⟩ * 100)
        ∧ (match reg.label_encoder with
           | some classes => b.classification ∈ classes
           | none => b.classification = toString i)) := by
  obtain ⟨mt, i, ps, hfin, hsrc⟩ := predict_ok_inv reg data b h
  obtain ⟨hi, hconf, hlab⟩ := finishPrediction_ok reg mt i ps b hfin
  have hp : 0 ≤ ps.get ⟨i, hi⟩ ∧ ps.get ⟨i, hi⟩ ≤ 1 := by
    have hmem := List.get_mem ps i hi
    rcases hsrc with ⟨m, hm, row, hpred, hrow⟩ | ⟨c, hc, x, p, rest, hx, hps, hieq⟩
    · exact hr.1 m hm row ps hrow _ hmem
    · subst hps
      exact hr.2 c hc x _ hx _ hmem
  have hb := round2_bounds (ps.get ⟨i, hi⟩ * 100)
    (by nlinarith [hp.1]) (by nlinarith [hp.2])
  exact ⟨by rw [hconf]; exact hb, ⟨ps, i, hi, hsrc, hconf, hlab⟩⟩

/-- **C6, witness.** -/
theorem c6_confidence_and_label_witness :
    (0 ≤ bodyFix.confidence ∧ bodyFix.confidence ≤ 100)
    ∧ (∃ (ps : List ℚ) (i : Nat) (hi : i < ps.length),
        ((∃ m, regFix.xgb_model = some m
            ∧ ∃ row, m.predict row = .ok i ∧ m.predict_proba row = .ok ps)
         ∨ (∃ c, regFix.cnn_model = some c
            ∧ ∃ x p rest, c.predict x = .ok (p :: rest) ∧ ps = p :: rest ∧ i = argmax p rest))
        ∧ bodyFix.confidence = round2 (ps.get ⟨i, hi⟩ * 100)
        ∧ (match regFix.label_encoder with
           | some classes => bodyFix.classification ∈ classes
           | none => bodyFix.classification = toString i)) := by
  have hpred : predict_single regFix (.obj (some "xgboost") ftsFix) = .ok bodyFix := by
    simp [predict_single, predict_single_tr, predict_with_model_type, xgbBranch, xgbScaleStep,
          xgbPredictStep, finishPrediction, encodeLabels, encodeLabelsAux, listGet?, missingOf,
          regFix, mFix, ftsFix, bodyFix, round2, List.lookup, List.filter, List.dedup,
          show pyLower "xgboost" = "xgboost" from rfl]
    norm_num [round_eq]
  have hrange : probaRanged regFix := by
    constructor
    · intro m hm r ps hps p hp
      have h2 : some mFix = some m := hm
      obtain rfl := Option.some.inj h2
      have h3 : Except.ok [(9 : ℚ)/10, 1/10] = Except.ok ps := hps
      obtain rfl : [(9 : ℚ)/10, 1/10] = ps := by injection h3
      simp only [List.mem_cons, List.not_mem_nil, or_false] at hp
      rcases hp with rfl | rfl <;> norm_num
    · intro c hc x ps hps p hp
      have h2 : some cFix = some c := hc
      obtain rfl := Option.some.inj h2
      have h3 : Except.ok [(1 : ℚ)] = Except.ok ps := hps
      obtain rfl : [(1 : ℚ)] = ps := by injection h3
      simp only [List.mem_cons, List.not_mem_nil, or_false] at hp
      subst hp
      norm_num
  exact c6_confidence_and_label regFix (.obj (some "xgboost") ftsFix) bodyFix hrange hpred

/-- A tabular model whose "probability" output exceeds 1 while staying
non-negative. -/
def mBigFix : XgbModel :=
  { predict := fun _ => .ok 0, predict_proba := fun _ => .ok [2] }

/-- A registry holding only `mBigFix`. -/
def regC6 : Registry := { emptyRegistry with xgb_model := some mBigFix }

/-- **C6, counterexample.** With a non-negative probability output of `[2]`
the request succeeds and the reported confidence is 200, outside `[0, 100]`:
non-negativity of the probabilities does not confine the confidence to
`[0, 100]` as claimed. -/
theorem c6_nonnegativity_does_not_bound_confidence :
    predict_single regC6 (.obj (some "xgboost") [("koi_period", FVal.num 1)])
      = .ok { classification := "0", confidence := 200
              probabilities := [("0", 200)], model_used := "xgboost" }
    ∧ ((0 : ℚ) ≤ 2) ∧ ¬ ((200 : ℚ) ≤ 100) := by
  refine ⟨?_, by norm_num, by norm_num⟩
  simp [predict_single, predict_single_tr, predict_with_model_type, xgbBranch, xgbScaleStep,
        xgbPredictStep, finishPrediction, encodeLabels, encodeLabelsAux, listGet?,
        regC6, emptyRegistry, mBigFix, round2,
        show pyLower "xgboost" = "xgboost" from rfl]
  norm_num [round_eq]
  exact rfl

end Exoplanet
